import Mathlib

set_option maxHeartbeats 1000000

/-!
Verification development for the PrintAPI SDK client library.

The development shallowly embeds the SDK's validator module
(`src/validate.js`), its error type (`PrintApiError.js`) and its client
facade (`PrintApiClient.js`) into Lean.  JSON-like runtime values are
modelled by the `Json` inductive below; JS numbers are modelled as
rationals (finite values; the exotic NaN/Infinity inputs are outside the
model).  JS objects are modelled as ordered association lists without
duplicate keys, which is exactly the shape object literals and
`JSON.parse` results take.
-/

/-- A JSON-like runtime value. -/
inductive Json where
  | null : Json
  | bool (b : Bool) : Json
  | num (q : Rat) : Json
  | str (s : String) : Json
  | arr (elems : List Json) : Json
  | obj (fields : List (String × Json)) : Json

/-- First-match lookup in an object's field list (JS objects have unique
keys, so first-match and last-match coincide). -/
def lookupField : List (String × Json) → String → Option Json
  | [], _ => none
  | (k', v) :: rest, k => if k' = k then some v else lookupField rest k

/-- JS property access `o[k]`: `none` models `undefined`. -/
def getField : Json → String → Option Json
  | .obj fs, k => lookupField fs k
  | _, _ => none

/-- Property access defaulting to `null`; for every check performed by the
SDK, `undefined` and `null` behave identically, so the two are merged when
a field value is passed on as a `Json`. -/
def getFieldD (j : Json) (k : String) : Json :=
  (getField j k).getD .null

/-- Assigning key `k` in an object literal build-up (`{...base, k: v}`):
an existing key keeps its position and is overwritten, a new key is
appended.  Stated for duplicate-free lists via first-occurrence
replacement. -/
def setKey : List (String × Json) → String → Json → List (String × Json)
  | [], k, v => [(k, v)]
  | (k', v') :: rest, k, v =>
      if k' = k then (k, v) :: rest else (k', v') :: setKey rest k v

/-- The fields of an object value (`[]` for non-objects; only applied to
values already known to be objects). -/
def objFields : Json → List (String × Json)
  | .obj fs => fs
  | _ => []

/-- JS truthiness of a value. -/
def jsTruthy : Json → Bool
  | .null => false
  | .bool b => b
  | .num q => !(q == 0)
  | .str s => !(s == "")
  | .arr _ => true
  | .obj _ => true

/-- JS truthiness with `none` standing for `undefined`. -/
def jsTruthyOpt : Option Json → Bool
  | none => false
  | some v => jsTruthy v

/-- `a || b` on a possibly-undefined left operand. -/
def jsOr (a : Option Json) (b : Json) : Json :=
  match a with
  | some v => if jsTruthy v then v else b
  | none => b

/-- ASCII uppercasing of one character, the fragment of
`String.prototype.toUpperCase` exercised by state codes. -/
def upChar (c : Char) : Char :=
  if 'a' ≤ c ∧ c ≤ 'z' then Char.ofNat (c.toNat - 32) else c

/-- `s.toUpperCase()` on ASCII strings. -/
def upStr (s : String) : String := String.mk (s.data.map upChar)

def isJsSpace (c : Char) : Bool :=
  c = ' ' ∨ c = '\t' ∨ c = '\n' ∨ c = '\r' ∨ c = '\x0b' ∨ c = '\x0c'

/-- `s.trim()`: strip leading and trailing whitespace. -/
def trimStr (s : String) : String :=
  String.mk (((s.data.dropWhile isJsSpace).reverse.dropWhile isJsSpace).reverse)

/-- `s.startsWith(pre)`. -/
def strStartsWith (s pre : String) : Bool :=
  pre.data.isPrefixOf s.data

/-- `s.includes(c)` for a single character. -/
def strContainsChar (s : String) (c : Char) : Bool :=
  s.data.contains c

/-! ## The validator module (`src/validate.js`) -/

/-- `VALID_STATES`: lower 48 US states + DC (excludes AK, HI). -/
def VALID_STATES : List String :=
  ["AL", "AZ", "AR", "CA", "CO", "CT", "DC", "DE", "FL", "GA",
   "ID", "IL", "IN", "IA", "KS", "KY", "LA", "ME", "MD", "MA",
   "MI", "MN", "MS", "MO", "MT", "NE", "NV", "NH", "NJ", "NM",
   "NY", "NC", "ND", "OH", "OK", "OR", "PA", "RI", "SC", "SD",
   "TN", "TX", "UT", "VT", "VA", "WA", "WV", "WI", "WY"]

def VALID_PRODUCT_TYPES : List String :=
  ["Newsletter", "Calendar", "Flyer", "LFP"]

/-- `isEmail(v)`: string containing an "@" and a ".". -/
def isEmail : Json → Bool
  | .str s => strContainsChar s '@' && strContainsChar s '.'
  | _ => false

/-- `isHttpsUrl(v)`: string starting with "https://". -/
def isHttpsUrl : Json → Bool
  | .str s => strStartsWith s "https://"
  | _ => false

/-- `isState(v)`: string whose uppercasing is in `VALID_STATES`. -/
def isState : Option Json → Bool
  | some (.str s) => VALID_STATES.contains (upStr s)
  | _ => false

/-- Condition checked by `requireString(val, label)`: `val` is a string
with non-blank content. -/
def isNonEmptyString : Option Json → Bool
  | some (.str s) => !(trimStr s == "")
  | _ => false

/-- One `if (!ok) throw new Error(msg)` step. -/
def boolCheck (b : Bool) (msg : String) : Except String Unit :=
  if b then .ok () else .error msg

/-- `requireString(val, label)`. -/
def requireString (val : Option Json) (label : String) : Except String Unit :=
  boolCheck (isNonEmptyString val) (label ++ " must be a non-empty string")

/-- `typeof item === 'object'`, excluding `null` and arrays — the
per-item shape test of `validateOrderItems`. -/
def isObjB : Json → Bool
  | .obj _ => true
  | _ => false

def productTypeOk : Option Json → Bool
  | some (.str s) => VALID_PRODUCT_TYPES.contains s
  | _ => false

/-- `Number.isInteger(q) && 1 <= q && q <= 1000`. -/
def quantityOk : Option Json → Bool
  | some (.num q) => q.den == 1 && decide (1 ≤ q) && decide (q ≤ 1000)
  | _ => false

/-- `typeof v === 'number' && v > 0`. -/
def posNum : Option Json → Bool
  | some (.num q) => decide (0 < q)
  | _ => false

/-- `item.sku === 'LFP_CS'` (strict equality, so only the exact string
matches). -/
def skuIsLfpCs (item : Json) : Bool :=
  match getField item "sku" with
  | some (.str s) => s == "LFP_CS"
  | _ => false

/-- The conditional dimensional-field check of `validateOrderItems`. -/
def checkDims (item : Json) (pfx : String) : Except String Unit :=
  if skuIsLfpCs item then do
    boolCheck (posNum (getField item "longEdge"))
      (pfx ++ ".longEdge is required for LFP_CS and must be a positive number")
    boolCheck (posNum (getField item "shortEdge"))
      (pfx ++ ".shortEdge is required for LFP_CS and must be a positive number")
  else .ok ()

/-- The per-file loop inside the files check, starting at index `j`. -/
def checkFilesFrom : List Json → Nat → String → Except String Unit
  | [], _, _ => .ok ()
  | f :: rest, j, pfx =>
      if isHttpsUrl f then checkFilesFrom rest (j + 1) pfx
      else .error (pfx ++ ".files[" ++ toString j ++ "] must be an HTTPS URL")

/-- The files check of `validateOrderItems` (only run when `requireFiles`
is enabled). -/
def checkFiles (v : Option Json) (pfx : String) : Except String Unit :=
  match v with
  | some (.arr files) =>
      if files.isEmpty then
        .error (pfx ++ ".files must be a non-empty array of HTTPS URLs")
      else checkFilesFrom files 0 pfx
  | _ => .error (pfx ++ ".files must be a non-empty array of HTTPS URLs")

/-- The body of one iteration of the `validateOrderItems` loop, with
`pfx = "orderItems[i]"`. -/
def validateItem (item : Json) (pfx : String) (requireFiles : Bool) :
    Except String Unit := do
  boolCheck (isObjB item) (pfx ++ " must be an object")
  requireString (getField item "sku") (pfx ++ ".sku")
  boolCheck (productTypeOk (getField item "productType"))
    (pfx ++ ".productType must be one of: Newsletter, Calendar, Flyer, LFP")
  boolCheck (quantityOk (getField item "quantity"))
    (pfx ++ ".quantity must be an integer between 1 and 1000")
  checkDims item pfx
  if requireFiles then checkFiles (getField item "files") pfx else .ok ()

/-- The indexed loop of `validateOrderItems`, processing the items whose
indices start at `i`. -/
def validateItemsFrom (items : List Json) (i : Nat) (requireFiles : Bool) :
    Except String Unit :=
  match items with
  | [] => .ok ()
  | item :: rest => do
      validateItem item ("orderItems[" ++ toString i ++ "]") requireFiles
      validateItemsFrom rest (i + 1) requireFiles

/-- `validateOrderItems(items, { requireFiles })`. -/
def validateOrderItems (items : Json) (requireFiles : Bool) :
    Except String Unit :=
  match items with
  | .arr l =>
      if l.isEmpty then .error "orderItems must be a non-empty array"
      else validateItemsFrom l 0 requireFiles
  | _ => .error "orderItems must be a non-empty array"

/-- `!customer || typeof customer !== 'object'` negated: customers may be
any non-null object (arrays included, as in JS). -/
def isObjectLike : Json → Bool
  | .obj _ => true
  | .arr _ => true
  | _ => false

/-- `typeof phone === 'string' && phone.length > 9`. -/
def phoneLongEnough : Option Json → Bool
  | some (.str s) => decide (9 < s.length)
  | _ => false

def isEmailOpt : Option Json → Bool
  | some v => isEmail v
  | none => false

/-- The indexed email loop over an email array; `pre` is the message text
up to the opening bracket of the index. -/
def checkEmailsFrom : List Json → Nat → String → Except String Unit
  | [], _, _ => .ok ()
  | e :: rest, i, pre =>
      if isEmail e then checkEmailsFrom rest (i + 1) pre
      else .error (pre ++ toString i ++ "] must be a valid email address")

/-- The `shipmentTrackingEmail` stanza of `validateCustomer`. -/
def checkTrackingEmails (v : Option Json) (label : String) :
    Except String Unit :=
  match v with
  | some (.arr l) =>
      if l.length < 1 ∨ l.length > 3 then
        .error (label ++ ".shipmentTrackingEmail must be an array of 1-3 email addresses")
      else checkEmailsFrom l 0 (label ++ ".shipmentTrackingEmail[")
  | _ => .error (label ++ ".shipmentTrackingEmail must be an array of 1-3 email addresses")

/-- The `billingInvoiceEmails` stanza of `validateCustomer`
(`!= null` lets both `undefined` and `null` skip the check). -/
def checkBillingEmails (v : Option Json) (label : String) :
    Except String Unit :=
  match v with
  | none => .ok ()
  | some .null => .ok ()
  | some (.arr l) => checkEmailsFrom l 0 (label ++ ".billingInvoiceEmails[")
  | some _ => .error (label ++ ".billingInvoiceEmails must be an array of email addresses")

/-- `validateCustomer(customer, label)`. -/
def validateCustomer (customer : Json) (label : String) :
    Except String Unit := do
  boolCheck (isObjectLike customer) (label ++ " is required")
  requireString (getField customer "firstName") (label ++ ".firstName")
  requireString (getField customer "lastName") (label ++ ".lastName")
  requireString (getField customer "address1") (label ++ ".address1")
  requireString (getField customer "city") (label ++ ".city")
  requireString (getField customer "zip") (label ++ ".zip")
  requireString (getField customer "phone") (label ++ ".phone")
  boolCheck (phoneLongEnough (getField customer "phone"))
    (label ++ ".phone must be a string with more than 9 characters")
  boolCheck (isEmailOpt (getField customer "email"))
    (label ++ ".email must be a valid email address")
  boolCheck (isState (getField customer "state"))
    (label ++ ".state must be a 2-letter US state code (lower 48 + DC)")
  (if label = "shippingCustomer" then
      checkTrackingEmails (getField customer "shipmentTrackingEmail") label
    else .ok ())
  (if label = "billingCustomer" then
      checkBillingEmails (getField customer "billingInvoiceEmails") label
    else .ok ())

/-- The `sourceSystemBilling === false` stanza of
`validateCreateOrderData`. -/
def checkBillingRequirement (orderData : Json) : Except String Unit :=
  match getField orderData "sourceSystemBilling" with
  | some (.bool false) => do
      boolCheck (jsTruthyOpt (getField orderData "billingCustomer"))
        "billingCustomer is required when sourceSystemBilling is false"
      validateCustomer (getFieldD orderData "billingCustomer") "billingCustomer"
  | _ => .ok ()

/-- `validateCreateOrderData(orderData)`. -/
def validateCreateOrderData (orderData : Json) : Except String Unit := do
  boolCheck (isObjectLike orderData) "orderData must be an object"
  requireString (getField orderData "orderDatetime") "orderDatetime"
  requireString (getField orderData "sourceReferenceOrderNumber") "sourceReferenceOrderNumber"
  validateOrderItems (getFieldD orderData "orderItems") true
  validateCustomer (getFieldD orderData "shippingCustomer") "shippingCustomer"
  checkBillingRequirement orderData

/-- `validateOrderNumber(orderNumber)`. -/
def validateOrderNumber (orderNumber : Json) : Except String Unit :=
  requireString (some orderNumber) "orderNumber"

/-! ## Error type (`src/PrintApiError.js`) and client facade
(`src/PrintApiClient.js`) -/

/-- `PrintApiError`: the normalized remote/transport error.  `errorType`
and `message` hold the values passed by the executor (strings in every
path the SDK itself produces; remote bodies may supply other JSON
values, which the constructor stores unchanged). -/
structure PrintApiError where
  status : Nat
  errorType : Json
  message : Json
  details : List (String × Json)

/-- The private configuration fields of `PrintApiClient` fixed by its
constructor. -/
structure Config where
  apiKey : String
  accountId : String
  baseUrl : String
  testMode : Bool

/-- Strip every trailing '/' — the effect of
`baseUrl.replace(/\/+$/, '')`. -/
def stripTrailingSlashes (s : String) : String :=
  String.mk ((s.data.reverse.dropWhile (fun c => c = '/')).reverse)

def defaultBaseUrl : String := "https://printapi.net/api/v1"

/-- The `PrintApiClient` constructor: requires non-blank `apiKey` and
`accountId` strings, defaults `baseUrl` and `testMode`, and stores the
trailing-slash-stripped base URL. -/
def mkPrintApiClient (apiKey accountId : Option Json)
    (baseUrl : String := defaultBaseUrl) (testMode : Bool := false) :
    Except String Config := do
  boolCheck (isNonEmptyString apiKey) "apiKey is required"
  boolCheck (isNonEmptyString accountId) "accountId is required"
  match apiKey, accountId with
  | some (.str k), some (.str a) =>
      .ok ⟨k, a, stripTrailingSlashes baseUrl, testMode⟩
  | _, _ => .error "apiKey is required"

/-- The HTTP exchange a facade method hands to `#request`: method, path,
query parameters and optional JSON body. -/
structure Request where
  method : String
  path : String
  query : List (String × Json)
  body : Option Json

/-- The body `createOrder` sends:
`{ ...orderData, accountId, ...(testMode && { testOrder: true }) }`. -/
def createOrderBody (c : Config) (orderData : Json) : Json :=
  let withAccount := setKey (objFields orderData) "accountId" (.str c.accountId)
  .obj (if c.testMode then setKey withAccount "testOrder" (.bool true) else withAccount)

/-- One facade method invocation with its caller-supplied argument. -/
inductive OpInput where
  | getCatalog : OpInput
  | checkPricing (orderItems : Json) : OpInput
  | createOrder (orderData : Json) : OpInput
  | getOrderStatus (orderNumber : Json) : OpInput
  | cancelOrder (orderNumber : Json) : OpInput

/-- The validation step and request construction of each facade method;
an `.error` is the local validation failure thrown before `#request`
is ever reached (hence before any network call). -/
def buildOp (c : Config) (op : OpInput) : Except String Request :=
  match op with
  | .getCatalog => .ok ⟨"GET", "/catalog", [], none⟩
  | .checkPricing orderItems => do
      validateOrderItems orderItems false
      .ok ⟨"POST", "/pricing", [],
        some (.obj [("accountId", .str c.accountId), ("orderItems", orderItems)])⟩
  | .createOrder orderData => do
      validateCreateOrderData orderData
      .ok ⟨"POST", "/order", [], some (createOrderBody c orderData)⟩
  | .getOrderStatus orderNumber => do
      validateOrderNumber orderNumber
      .ok ⟨"GET", "/orderstatus",
        [("accountId", .str c.accountId), ("orderNumber", orderNumber)], none⟩
  | .cancelOrder orderNumber => do
      validateOrderNumber orderNumber
      .ok ⟨"POST", "/cancelorder", [],
        some (.obj [("accountId", .str c.accountId), ("orderNumber", orderNumber)])⟩

/-- What the single `fetch` call inside `#request` did: threw before any
response, or returned a response with a status and a body that either
parses to a `Json` value or does not parse. -/
inductive FetchResult where
  | fetchError (msg : String) : FetchResult
  | response (status : Nat) (jsonBody : Option Json) : FetchResult

/-- `response.ok`: HTTP status in the 2xx success range. -/
def responseOk (status : Nat) : Bool :=
  200 ≤ status && status ≤ 299

/-- Drop the `error` and `message` keys, keeping order. -/
def dropErrKeys : List (String × Json) → List (String × Json)
  | [] => []
  | (k, v) :: rest =>
      if k = "error" ∨ k = "message" then dropErrKeys rest
      else (k, v) :: dropErrKeys rest

/-- The fields of an error body other than the destructured `error` and
`message` fields — the `...rest` of
`const { error: errorType, message, ...rest } = data`. -/
def restFields : Json → List (String × Json)
  | .obj fs => dropErrKeys fs
  | _ => []

/-- Outcome classification of `#request` after the request was sent:
transport throw, unparseable body, remote error body, or parsed
success payload (returned verbatim). -/
def requestOutcome (fr : FetchResult) : Except PrintApiError Json :=
  match fr with
  | .fetchError msg =>
      .error ⟨0, .str "NetworkError", .str ("Request failed: " ++ msg), []⟩
  | .response status jsonBody =>
      match jsonBody with
      | none =>
          .error ⟨status, .str "ParseError",
            .str ("Failed to parse response (HTTP " ++ toString status ++ ")"), []⟩
      | some data =>
          if responseOk status then .ok data
          else
            .error ⟨status,
              jsOr (getField data "error") (.str ("HTTP " ++ toString status)),
              jsOr (getField data "message") (.str "Unknown error"),
              restFields data⟩

/-- The two disjoint error kinds a facade method can reject with. -/
inductive OpError where
  | validation (msg : String) : OpError
  | api (e : PrintApiError) : OpError

/-- A full facade method call: local validation, then exactly one HTTP
exchange whose transport-level outcome is `fr`. -/
def performOp (c : Config) (op : OpInput) (fr : FetchResult) :
    Except OpError Json :=
  match buildOp c op with
  | .error msg => .error (.validation msg)
  | .ok _ => (requestOutcome fr).mapError .api

/-- One facade method call as a step of the client's state: the method
bodies read the private configuration fields and never assign them, so
the configuration component of the state is returned unchanged. -/
def applyOp (c : Config) (op : OpInput) : Except String Request × Config :=
  (buildOp c op, c)

/-- The configuration state after a sequence of facade calls. -/
def runOps (c : Config) (ops : List OpInput) : Config :=
  ops.foldl (fun s op => (applyOp s op).2) c

/-! ## Boolean specifications of the item checks and basic lemmas -/

/-- The dimensional requirement as a boolean: vacuous unless the sku is
exactly "LFP_CS". -/
def dimsOk (item : Json) : Bool :=
  !skuIsLfpCs item ||
    (posNum (getField item "longEdge") && posNum (getField item "shortEdge"))

/-- The files requirement as a boolean. -/
def filesOk : Option Json → Bool
  | some (.arr files) => !files.isEmpty && files.all isHttpsUrl
  | _ => false

/-- All checks of one `validateOrderItems` iteration as one boolean. -/
def itemOk (item : Json) (rf : Bool) : Bool :=
  isObjB item &&
  isNonEmptyString (getField item "sku") &&
  productTypeOk (getField item "productType") &&
  quantityOk (getField item "quantity") &&
  dimsOk item &&
  (!rf || filesOk (getField item "files"))

theorem boolCheck_ok_iff (b : Bool) (msg : String) :
    boolCheck b msg = .ok () ↔ b = true := by
  cases b <;> simp [boolCheck]

theorem seq_ok_iff {β : Type} (a : Except String Unit)
    (b : Unit → Except String β) (x : β) :
    (a >>= b) = .ok x ↔ a = .ok () ∧ b () = .ok x := by
  cases a <;> simp [Bind.bind, Except.bind]

theorem seq_error_left {β : Type} (a : Except String Unit)
    (b : Unit → Except String β) (m : String) (h : a = .error m) :
    (a >>= b) = .error m := by
  rw [h]; rfl

theorem checkFilesFrom_ok_iff (l : List Json) (j : Nat) (pfx : String) :
    checkFilesFrom l j pfx = .ok () ↔ l.all isHttpsUrl = true := by
  induction l generalizing j with
  | nil => simp [checkFilesFrom]
  | cons f rest ih =>
      cases h : isHttpsUrl f <;> simp [checkFilesFrom, h, ih]

theorem checkFiles_ok_iff (v : Option Json) (pfx : String) :
    checkFiles v pfx = .ok () ↔ filesOk v = true := by
  match v with
  | none => simp [checkFiles, filesOk]
  | some .null | some (.bool _) | some (.num _) | some (.str _)
  | some (.obj _) => simp [checkFiles, filesOk]
  | some (.arr files) =>
      cases h : files.isEmpty <;>
        simp [checkFiles, filesOk, h, checkFilesFrom_ok_iff]

theorem checkDims_ok_iff (item : Json) (pfx : String) :
    checkDims item pfx = .ok () ↔ dimsOk item = true := by
  cases hs : skuIsLfpCs item <;>
    cases hl : posNum (getField item "longEdge") <;>
      cases hr : posNum (getField item "shortEdge") <;>
        simp [checkDims, dimsOk, hs, hl, hr, boolCheck, Bind.bind, Except.bind]

theorem validateItem_ok_iff (item : Json) (pfx : String) (rf : Bool) :
    validateItem item pfx rf = .ok () ↔ itemOk item rf = true := by
  cases rf <;>
    simp [validateItem, itemOk, requireString, seq_ok_iff, boolCheck_ok_iff,
      checkDims_ok_iff, checkFiles_ok_iff, and_assoc]

theorem validateItem_fails_of_bad (item : Json) (pfx : String) (rf : Bool)
    (h : itemOk item rf = false) :
    ∃ msg, validateItem item pfx rf = .error msg := by
  cases hv : validateItem item pfx rf with
  | ok u =>
      cases u
      rw [validateItem_ok_iff] at hv
      rw [hv] at h
      cases h
  | error m => exact ⟨m, rfl⟩

theorem validateItemsFrom_fails_of_bad (l : List Json) (rf : Bool) :
    ∀ (i0 i : Nat) (item : Json), l[i]? = some item →
      itemOk item rf = false →
      ∃ msg, validateItemsFrom l i0 rf = .error msg := by
  induction l with
  | nil => intro i0 i item hi; simp at hi
  | cons hd tl ih =>
      intro i0 i item hi hbad
      cases hv : validateItem hd ("orderItems[" ++ toString i0 ++ "]") rf with
      | error m =>
          exact ⟨m, seq_error_left _ _ m hv⟩
      | ok u =>
          cases u
          have hchain : validateItemsFrom (hd :: tl) i0 rf =
              validateItemsFrom tl (i0 + 1) rf := by
            simp [validateItemsFrom, hv, Bind.bind, Except.bind]
          cases i with
          | zero =>
              simp at hi
              rw [validateItem_ok_iff] at hv
              rw [hi] at hv
              rw [hv] at hbad
              cases hbad
          | succ i' =>
              simp only [List.getElem?_cons_succ] at hi
              obtain ⟨msg, hmsg⟩ := ih (i0 + 1) i' item hi hbad
              exact ⟨msg, hchain ▸ hmsg⟩

theorem validateItemsFrom_quantity_msg (l : List Json) (rf : Bool) :
    ∀ (i0 i : Nat) (item : Json), l[i]? = some item →
      (∀ j itJ, j < i → l[j]? = some itJ → itemOk itJ rf = true) →
      isObjB item = true →
      isNonEmptyString (getField item "sku") = true →
      productTypeOk (getField item "productType") = true →
      quantityOk (getField item "quantity") = false →
      validateItemsFrom l i0 rf =
        .error (("orderItems[" ++ toString (i0 + i) ++ "]") ++
          ".quantity must be an integer between 1 and 1000") := by
  induction l with
  | nil => intro i0 i item hi; simp at hi
  | cons hd tl ih =>
      intro i0 i item hi hpre hobj hsku hpt hq
      cases i with
      | zero =>
          have hhd : hd = item := by simpa using hi
          subst hhd
          have hitem : validateItem hd ("orderItems[" ++ toString i0 ++ "]") rf =
              .error (("orderItems[" ++ toString i0 ++ "]") ++
                ".quantity must be an integer between 1 and 1000") := by
            simp [validateItem, requireString, boolCheck, hobj, hsku, hpt, hq,
              Bind.bind, Except.bind]
          show (validateItem hd ("orderItems[" ++ toString i0 ++ "]") rf >>= fun _ =>
              validateItemsFrom tl (i0 + 1) rf) = _
          rw [seq_error_left _ _ _ hitem]
          simp [Nat.add_zero]
      | succ i' =>
          have hhd : itemOk hd rf = true := by
            apply hpre 0 hd (Nat.succ_pos i')
            simp
          have hv : validateItem hd ("orderItems[" ++ toString i0 ++ "]") rf = .ok () :=
            (validateItem_ok_iff hd _ rf).mpr hhd
          have hchain : validateItemsFrom (hd :: tl) i0 rf =
              validateItemsFrom tl (i0 + 1) rf := by
            simp [validateItemsFrom, hv, Bind.bind, Except.bind]
          rw [hchain]
          simp only [List.getElem?_cons_succ] at hi
          have := ih (i0 + 1) i' item hi
            (fun j itJ hj hjit => hpre (j + 1) itJ (Nat.succ_lt_succ hj)
              (by simpa using hjit)) hobj hsku hpt hq
          rw [this]
          have harith : i0 + 1 + i' = i0 + (i' + 1) := by omega
          rw [harith]

/-! ## Association-list lemmas for object construction -/

theorem lookupField_setKey_self (fs : List (String × Json)) (k : String) (v : Json) :
    lookupField (setKey fs k v) k = some v := by
  induction fs with
  | nil => simp [setKey, lookupField]
  | cons p rest ih =>
      by_cases h : p.1 = k
      · simp [setKey, h, lookupField]
      · simp [setKey, h, lookupField, ih]

theorem lookupField_setKey_ne (fs : List (String × Json)) (k k' : String)
    (v : Json) (h : k' ≠ k) :
    lookupField (setKey fs k' v) k = lookupField fs k := by
  induction fs with
  | nil => simp [setKey, lookupField, h]
  | cons p rest ih =>
      by_cases hp : p.1 = k'
      · simp [setKey, hp, lookupField, h]
      · simp [setKey, hp, lookupField, ih]

theorem getField_eq_lookup_objFields (j : Json) (k : String) :
    getField j k = lookupField (objFields j) k := by
  cases j <;> simp [getField, objFields, lookupField]

theorem lookupField_dropErrKeys (fs : List (String × Json)) (k : String)
    (h1 : k ≠ "error") (h2 : k ≠ "message") :
    lookupField (dropErrKeys fs) k = lookupField fs k := by
  induction fs with
  | nil => simp [dropErrKeys, lookupField]
  | cons p rest ih =>
      obtain ⟨pk, pv⟩ := p
      by_cases hp : pk = "error" ∨ pk = "message"
      · have hpk : pk ≠ k := by
          rcases hp with hp | hp <;> rw [hp]
          · exact fun hc => h1 hc.symm
          · exact fun hc => h2 hc.symm
        simp [dropErrKeys, hp, lookupField, hpk, ih]
      · by_cases hpk : pk = k
        · simp [dropErrKeys, hp, lookupField, hpk, h1, h2]
        · simp [dropErrKeys, hp, lookupField, hpk, ih]

theorem lookupField_dropErrKeys_removed (fs : List (String × Json)) (k : String)
    (h : k = "error" ∨ k = "message") :
    lookupField (dropErrKeys fs) k = none := by
  induction fs with
  | nil => simp [dropErrKeys, lookupField]
  | cons p rest ih =>
      obtain ⟨pk, pv⟩ := p
      by_cases hp : pk = "error" ∨ pk = "message"
      · simp [dropErrKeys, hp, ih]
      · have hpk : pk ≠ k := by
          rcases h with h | h <;> rw [h] <;> intro hc
          · exact hp (Or.inl hc)
          · exact hp (Or.inr hc)
        simp [dropErrKeys, hp, lookupField, hpk, ih]

/-! ## Concrete fixtures for witnesses and counterexamples -/

/-- A facade configured with test-mode enabled. -/
def cfgTest : Config := ⟨"test-key", "ACCT-1", defaultBaseUrl, true⟩

/-- A facade configured with test-mode disabled. -/
def cfgProd : Config := ⟨"test-key", "ACCT-1", defaultBaseUrl, false⟩

def shippingW : Json := .obj [
  ("firstName", .str "Jane"), ("lastName", .str "Smith"),
  ("address1", .str "456 Oak Ave"), ("city", .str "Portland"),
  ("zip", .str "97201"), ("phone", .str "555-987-6543"),
  ("email", .str "jane@example.com"), ("state", .str "OR"),
  ("shipmentTrackingEmail", .arr [.str "jane@example.com"])]

def itemW : Json := .obj [
  ("sku", .str "TAB_2D_16P"), ("productType", .str "Newsletter"),
  ("quantity", .num 50), ("staple", .bool true),
  ("files", .arr [.str "https://example.com/newsletter.pdf"])]

/-- A fully valid order payload that also smuggles in a foreign
`accountId` and an explicit `testOrder: false`. -/
def orderW : Json := .obj [
  ("orderDatetime", .str "2024-01-15T10:30:00Z"),
  ("sourceReferenceOrderNumber", .str "MY-ORDER-001"),
  ("accountId", .str "EVIL"),
  ("testOrder", .bool false),
  ("orderItems", .arr [itemW]),
  ("shippingCustomer", shippingW)]

/-- The 409 duplicate-order body of the spec's end-to-end scenario D. -/
def conflictBody : List (String × Json) :=
  [("error", .str "Conflict"),
   ("message", .str "Duplicate Customer Order Number"),
   ("existingOrderNumber", .str "ATEST-0000001")]

/-- An item failing the productType check (and nothing about quantity). -/
def itemBadPT : Json := .obj [("sku", .str "TAB_1D"),
  ("productType", .str "Poster"), ("quantity", .num 5)]

/-- An item with an out-of-range quantity. -/
def itemBadQty : Json := .obj [("sku", .str "TAB_1D"),
  ("productType", .str "Calendar"), ("quantity", .num 0)]

/-- An order payload whose payload-level fields are valid and whose only
violation is the out-of-range quantity of its single item. -/
def orderBadQty : Json := .obj [
  ("orderDatetime", .str "2024-01-15T10:30:00Z"),
  ("sourceReferenceOrderNumber", .str "ORD-2"),
  ("orderItems", .arr [itemBadQty])]

/-- A custom-size item with both dimensions supplied as positives. -/
def lfpItemFs : List (String × Json) :=
  [("sku", .str "LFP_CS"), ("productType", .str "LFP"), ("quantity", .num 2),
   ("longEdge", .num 48), ("shortEdge", .num 36)]

/-- The 48 contiguous US state codes plus DC, as enumerated by the claim
(all fifty states minus AK and HI, plus DC). -/
def CONTIGUOUS_STATES_DC : List String :=
  ["AL", "AR", "AZ", "CA", "CO", "CT", "DC", "DE", "FL", "GA",
   "IA", "ID", "IL", "IN", "KS", "KY", "LA", "MA", "MD", "ME",
   "MI", "MN", "MO", "MS", "MT", "NC", "ND", "NE", "NH", "NJ",
   "NM", "NV", "NY", "OH", "OK", "OR", "PA", "RI", "SC", "SD",
   "TN", "TX", "UT", "VA", "VT", "WA", "WI", "WV", "WY"]

/-- A shipping customer whose state is lowercase Hawaii. -/
def custHI : Json := .obj [
  ("firstName", .str "Jane"), ("lastName", .str "Smith"),
  ("address1", .str "456 Oak Ave"), ("city", .str "Honolulu"),
  ("zip", .str "96801"), ("phone", .str "555-987-6543"),
  ("email", .str "jane@example.com"), ("state", .str "hi"),
  ("shipmentTrackingEmail", .arr [.str "jane@example.com"])]

/-- A customer record whose state is lowercase DC. -/
def custDC : Json := .obj [("state", .str "dc")]

/-- An item with the lowercase sku variant and no dimensions. -/
def lfpLowerFs : List (String × Json) :=
  [("sku", .str "lfp_cs"), ("productType", .str "LFP"), ("quantity", .num 2)]

/-- An item whose files field is not a list of HTTPS URL strings. -/
def weirdFilesItem : Json := .obj [("sku", .str "TAB_1D"),
  ("productType", .str "Calendar"), ("quantity", .num 3),
  ("files", .arr [.str "http://insecure.example.com/a.pdf", .num 42])]

/-! ## Claim theorems -/

/-- C1: for every createOrder call on a facade with account identifier
`c.accountId`, the JSON body of the outgoing POST /order request has
`accountId` equal to `c.accountId`, regardless of any `accountId` field in
the caller-supplied payload (overwrite, not merge). -/
theorem createOrder_accountId_overrides (c : Config) (orderData : Json)
    (req : Request) (h : buildOp c (.createOrder orderData) = .ok req) :
    req.method = "POST" ∧ req.path = "/order" ∧
    ∃ body, req.body = some body ∧
      getField body "accountId" = some (.str c.accountId) := by
  simp only [buildOp] at h
  rw [seq_ok_iff] at h
  obtain ⟨hval, hreq⟩ := h
  injection hreq with hreq
  subst hreq
  refine ⟨rfl, rfl, createOrderBody c orderData, rfl, ?_⟩
  show lookupField _ "accountId" = _
  cases hm : c.testMode
  · simp only [hm, Bool.false_eq_true, if_false]
    exact lookupField_setKey_self _ _ _
  · simp only [hm, if_true]
    rw [lookupField_setKey_ne _ _ _ _ (by decide)]
    exact lookupField_setKey_self _ _ _

/-- Witness for C1 at a concrete test-mode facade and a payload carrying
a foreign accountId. -/
theorem createOrder_accountId_overrides_witness :
    ∃ req, buildOp cfgTest (.createOrder orderW) = .ok req ∧
      req.method = "POST" ∧ req.path = "/order" ∧
      ∃ body, req.body = some body ∧
        getField body "accountId" = some (.str "ACCT-1") := by
  have h : buildOp cfgTest (.createOrder orderW) =
      .ok ⟨"POST", "/order", [], some (createOrderBody cfgTest orderW)⟩ := by rfl
  exact ⟨_, h, createOrder_accountId_overrides cfgTest orderW _ h⟩

/-- C2: with test-mode enabled the outgoing body's `testOrder` is forced
to `true` (overriding even an explicit caller `false`); with test-mode
disabled no `testOrder` value is injected — the body carries exactly the
caller's value, if any. -/
theorem createOrder_testOrder_flag (c : Config) (orderData : Json)
    (req : Request) (h : buildOp c (.createOrder orderData) = .ok req) :
    ∃ body, req.body = some body ∧
      (c.testMode = true → getField body "testOrder" = some (.bool true)) ∧
      (c.testMode = false →
        getField body "testOrder" = getField orderData "testOrder") := by
  simp only [buildOp] at h
  rw [seq_ok_iff] at h
  obtain ⟨hval, hreq⟩ := h
  injection hreq with hreq
  subst hreq
  refine ⟨createOrderBody c orderData, rfl, ?_, ?_⟩
  · intro hm
    show lookupField _ "testOrder" = _
    simp only [hm, if_true]
    exact lookupField_setKey_self _ _ _
  · intro hm
    show lookupField _ "testOrder" = _
    simp only [hm, Bool.false_eq_true, if_false]
    rw [lookupField_setKey_ne _ _ _ _ (by decide)]
    exact (getField_eq_lookup_objFields orderData "testOrder").symm

/-- Witness for C2: with `cfgTest` (test-mode on) the body's `testOrder`
is `true` although `orderW` supplies `false`; with `cfgProd` (test-mode
off) the caller's `false` survives untouched. -/
theorem createOrder_testOrder_flag_witness :
    (∃ req body, buildOp cfgTest (.createOrder orderW) = .ok req ∧
      req.body = some body ∧
      getField orderW "testOrder" = some (.bool false) ∧
      getField body "testOrder" = some (.bool true)) ∧
    (∃ req body, buildOp cfgProd (.createOrder orderW) = .ok req ∧
      req.body = some body ∧
      getField body "testOrder" = some (.bool false)) := by
  constructor
  · have h : buildOp cfgTest (.createOrder orderW) =
        .ok ⟨"POST", "/order", [], some (createOrderBody cfgTest orderW)⟩ := by rfl
    obtain ⟨body, hb, ht, _⟩ := createOrder_testOrder_flag cfgTest orderW _ h
    exact ⟨_, body, h, hb, rfl, ht rfl⟩
  · have h : buildOp cfgProd (.createOrder orderW) =
        .ok ⟨"POST", "/order", [], some (createOrderBody cfgProd orderW)⟩ := by rfl
    obtain ⟨body, hb, _, hf⟩ := createOrder_testOrder_flag cfgProd orderW _ h
    refine ⟨_, body, h, hb, ?_⟩
    rw [hf rfl]
    rfl

/-- C8: the configuration is fixed at construction — running any sequence
of facade operations leaves it unchanged, and a subsequent operation
builds exactly the request it would have built on the fresh
configuration. -/
theorem config_immutable_under_ops (c : Config) (ops : List OpInput)
    (op : OpInput) :
    runOps c ops = c ∧ applyOp (runOps c ops) op = (buildOp c op, c) := by
  have hr : runOps c ops = c := by
    induction ops with
    | nil => rfl
    | cons o rest ih => exact ih
  exact ⟨hr, by rw [hr]; rfl⟩

/-- C3: when the transport call itself throws, any facade operation that
reached the network rejects with status 0, error-type "NetworkError" and
message "Request failed: " plus the transport message; when a response
arrives whose body does not parse as JSON, it rejects with the received
HTTP status and error-type "ParseError". -/
theorem transport_and_parse_error_normalization (c : Config) (op : OpInput)
    (req : Request) (h : buildOp c op = .ok req) (msg : String) (status : Nat) :
    performOp c op (.fetchError msg) =
      .error (.api ⟨0, .str "NetworkError",
        .str ("Request failed: " ++ msg), []⟩) ∧
    performOp c op (.response status none) =
      .error (.api ⟨status, .str "ParseError",
        .str ("Failed to parse response (HTTP " ++ toString status ++ ")"), []⟩) := by
  constructor <;> simp [performOp, h, requestOutcome, Except.mapError]

/-- Witness for C3 on a catalog call: a thrown fetch and an unparseable
500 body. -/
theorem transport_and_parse_error_normalization_witness :
    performOp cfgProd .getCatalog (.fetchError "ECONNREFUSED") =
      .error (.api ⟨0, .str "NetworkError",
        .str "Request failed: ECONNREFUSED", []⟩) ∧
    performOp cfgProd .getCatalog (.response 500 none) =
      .error (.api ⟨500, .str "ParseError",
        .str "Failed to parse response (HTTP 500)", []⟩) := by
  exact transport_and_parse_error_normalization cfgProd .getCatalog _ rfl
    "ECONNREFUSED" 500

/-- C4 (amended): a parsed non-2xx response is normalized to an error
whose status is the HTTP status, whose error-type is the remote label
when it is present and truthy and the literal "HTTP status" otherwise,
whose message is the remote message when present and truthy and
"Unknown error" otherwise, and whose details carry every non-label,
non-message field of the body verbatim. -/
theorem remote_error_normalization (c : Config) (op : OpInput)
    (req : Request) (h : buildOp c op = .ok req) (status : Nat)
    (flds : List (String × Json)) (hst : responseOk status = false) :
    ∃ e : PrintApiError,
      performOp c op (.response status (some (.obj flds))) =
        .error (.api e) ∧
      e.status = status ∧
      (∀ v, lookupField flds "error" = some v → jsTruthy v = true →
        e.errorType = v) ∧
      ((∀ v, lookupField flds "error" = some v → jsTruthy v = false) →
        e.errorType = .str ("HTTP " ++ toString status)) ∧
      (∀ v, lookupField flds "message" = some v → jsTruthy v = true →
        e.message = v) ∧
      ((∀ v, lookupField flds "message" = some v → jsTruthy v = false) →
        e.message = .str "Unknown error") ∧
      (∀ k, k ≠ "error" → k ≠ "message" →
        lookupField e.details k = lookupField flds k) ∧
      lookupField e.details "error" = none ∧
      lookupField e.details "message" = none := by
  refine ⟨⟨status,
      jsOr (lookupField flds "error") (.str ("HTTP " ++ toString status)),
      jsOr (lookupField flds "message") (.str "Unknown error"),
      dropErrKeys flds⟩, ?_, rfl, ?_, ?_, ?_, ?_, ?_, ?_, ?_⟩
  · simp [performOp, h, requestOutcome, hst, Except.mapError, getField, restFields]
  · intro v hsome htruthy
    simp [jsOr, hsome, htruthy]
  · intro hfalsy
    cases hv : lookupField flds "error" with
    | none => simp [jsOr]
    | some v => simp [jsOr, hfalsy v hv]
  · intro v hsome htruthy
    simp [jsOr, hsome, htruthy]
  · intro hfalsy
    cases hv : lookupField flds "message" with
    | none => simp [jsOr]
    | some v => simp [jsOr, hfalsy v hv]
  · intro k h1 h2
    exact lookupField_dropErrKeys flds k h1 h2
  · exact lookupField_dropErrKeys_removed flds "error" (Or.inl rfl)
  · exact lookupField_dropErrKeys_removed flds "message" (Or.inr rfl)

/-- C4 as frozen is refuted by a present-but-empty remote error label:
the code's truthiness fallback replaces it with "HTTP 409" instead of
using the supplied label. -/
theorem remote_error_label_counterexample :
    performOp cfgProd .getCatalog
      (.response 409 (some (.obj [("error", .str ""), ("message", .str "boom")]))) =
      .error (.api ⟨409, .str "HTTP 409", .str "boom", []⟩) ∧
    Json.str "HTTP 409" ≠ Json.str "" := by
  constructor
  · rfl
  · intro hc
    injection hc with hc
    exact absurd hc (by decide)


/-- Witness for C4 (amended) at the scenario-D body. -/
theorem remote_error_normalization_witness :
    ∃ e : PrintApiError,
      performOp cfgProd .getCatalog (.response 409 (some (.obj conflictBody))) =
        .error (.api e) ∧
      e.status = 409 ∧ e.errorType = .str "Conflict" ∧
      e.message = .str "Duplicate Customer Order Number" ∧
      lookupField e.details "existingOrderNumber" =
        some (.str "ATEST-0000001") := by
  obtain ⟨e, hp, hs, htr, _, hmt, _, hdet, _, _⟩ :=
    remote_error_normalization cfgProd .getCatalog _ rfl 409 conflictBody rfl
  refine ⟨e, hp, hs, ?_, ?_, ?_⟩
  · exact htr (.str "Conflict") rfl rfl
  · exact hmt (.str "Duplicate Customer Order Number") rfl rfl
  · rw [hdet "existingOrderNumber" (by decide) (by decide)]
    rfl

theorem validateOrderItems_arr (l : List Json) (rf : Bool)
    (hne : l.isEmpty = false) :
    validateOrderItems (.arr l) rf = validateItemsFrom l 0 rf := by
  simp [validateOrderItems, hne]

theorem validateCreateOrderData_ok_items (orderData : Json)
    (h : validateCreateOrderData orderData = .ok ()) :
    validateOrderItems (getFieldD orderData "orderItems") true = .ok () := by
  simp only [validateCreateOrderData, seq_ok_iff] at h
  tauto

/-- C5 (amended): an order-item sequence containing a bad-quantity item
always fails local validation for both checkPricing and createOrder, so
no request is built; the message names that item's index and the quantity
field provided the item passes the preceding per-item checks and every
earlier item validates fully — for createOrder additionally provided the
payload checks preceding item validation pass (object payload with
non-blank orderDatetime and sourceReferenceOrderNumber strings, earlier
items passing their files check too). -/
theorem bad_quantity_rejected_locally (c : Config) (l : List Json) (i : Nat)
    (item : Json) (hi : l[i]? = some item)
    (hq : quantityOk (getField item "quantity") = false) :
    (∃ msg, buildOp c (.checkPricing (.arr l)) = .error msg) ∧
    (∀ orderData, getField orderData "orderItems" = some (.arr l) →
      ∃ msg, buildOp c (.createOrder orderData) = .error msg) ∧
    ((∀ j itJ, j < i → l[j]? = some itJ → itemOk itJ false = true) →
      isObjB item = true →
      isNonEmptyString (getField item "sku") = true →
      productTypeOk (getField item "productType") = true →
      buildOp c (.checkPricing (.arr l)) =
        .error (("orderItems[" ++ toString i ++ "]") ++
          ".quantity must be an integer between 1 and 1000")) ∧
    (∀ orderData, getField orderData "orderItems" = some (.arr l) →
      isObjectLike orderData = true →
      isNonEmptyString (getField orderData "orderDatetime") = true →
      isNonEmptyString (getField orderData "sourceReferenceOrderNumber") = true →
      (∀ j itJ, j < i → l[j]? = some itJ → itemOk itJ true = true) →
      isObjB item = true →
      isNonEmptyString (getField item "sku") = true →
      productTypeOk (getField item "productType") = true →
      buildOp c (.createOrder orderData) =
        .error (("orderItems[" ++ toString i ++ "]") ++
          ".quantity must be an integer between 1 and 1000")) := by
  have hbadF : itemOk item false = false := by simp [itemOk, hq]
  have hbadT : itemOk item true = false := by simp [itemOk, hq]
  have hne : l.isEmpty = false := by
    cases l with
    | nil => simp at hi
    | cons a as => rfl
  refine ⟨?_, ?_, ?_, ?_⟩
  · obtain ⟨msg, hmsg⟩ := validateItemsFrom_fails_of_bad l false 0 i item hi hbadF
    refine ⟨msg, ?_⟩
    show (validateOrderItems (.arr l) false >>= fun _ => _) = _
    rw [validateOrderItems_arr l false hne, hmsg]
    rfl
  · intro orderData hod
    cases hv : validateCreateOrderData orderData with
    | error m =>
        refine ⟨m, ?_⟩
        show (validateCreateOrderData orderData >>= fun _ => _) = _
        rw [hv]
        rfl
    | ok u =>
        cases u
        exfalso
        have hitems := validateCreateOrderData_ok_items orderData hv
        rw [show getFieldD orderData "orderItems" = .arr l by
          simp [getFieldD, hod]] at hitems
        rw [validateOrderItems_arr l true hne] at hitems
        obtain ⟨msg2, hmsg2⟩ :=
          validateItemsFrom_fails_of_bad l true 0 i item hi hbadT
        rw [hmsg2] at hitems
        cases hitems
  · intro hpre hobj hsku hpt
    have hmsg := validateItemsFrom_quantity_msg l false 0 i item hi hpre
      hobj hsku hpt hq
    show (validateOrderItems (.arr l) false >>= fun _ => _) = _
    rw [validateOrderItems_arr l false hne, hmsg]
    simp [Bind.bind, Except.bind, Nat.zero_add]
  · intro orderData hod hObjLike hDt hRef hpreT hobj hsku hpt
    have hmsgT := validateItemsFrom_quantity_msg l true 0 i item hi hpreT
      hobj hsku hpt hq
    have hitems : validateOrderItems (getFieldD orderData "orderItems") true =
        .error (("orderItems[" ++ toString i ++ "]") ++
          ".quantity must be an integer between 1 and 1000") := by
      rw [show getFieldD orderData "orderItems" = .arr l by simp [getFieldD, hod]]
      rw [validateOrderItems_arr l true hne, hmsgT]
      simp [Nat.zero_add]
    have hvcd : validateCreateOrderData orderData =
        .error (("orderItems[" ++ toString i ++ "]") ++
          ".quantity must be an integer between 1 and 1000") := by
      simp [validateCreateOrderData, requireString, boolCheck, hObjLike, hDt,
        hRef, hitems, Bind.bind, Except.bind]
    show (validateCreateOrderData orderData >>= fun _ => _) = _
    rw [hvcd]
    rfl



/-- C5 as frozen is refuted when an earlier item carries a different
violation: the sequence holds a bad-quantity item at index 1, yet the
raised message names index 0 and the productType field, not quantity. -/
theorem bad_quantity_message_counterexample :
    quantityOk (getField itemBadQty "quantity") = false ∧
    buildOp cfgProd (.checkPricing (.arr [itemBadPT, itemBadQty])) =
      .error "orderItems[0].productType must be one of: Newsletter, Calendar, Flyer, LFP" ∧
    ("orderItems[0].productType must be one of: Newsletter, Calendar, Flyer, LFP" ≠
      "orderItems[1].quantity must be an integer between 1 and 1000") :=
  ⟨rfl, rfl, by decide⟩

/-- Witness for C5 (amended) with the bad-quantity item first: both
checkPricing and createOrder fail with a message naming index 0 and the
quantity field. -/
theorem bad_quantity_rejected_locally_witness :
    (∃ msg, buildOp cfgProd (.checkPricing (.arr [itemBadQty])) = .error msg) ∧
    buildOp cfgProd (.checkPricing (.arr [itemBadQty])) =
      .error "orderItems[0].quantity must be an integer between 1 and 1000" ∧
    buildOp cfgProd (.createOrder orderBadQty) =
      .error "orderItems[0].quantity must be an integer between 1 and 1000" := by
  obtain ⟨h1, _, h3, h4⟩ :=
    bad_quantity_rejected_locally cfgProd [itemBadQty] 0 itemBadQty rfl rfl
  refine ⟨h1, h3 (fun j itJ hj _ => absurd hj (Nat.not_lt_zero j)) rfl rfl rfl, ?_⟩
  exact h4 orderBadQty rfl rfl rfl rfl
    (fun j itJ hj _ => absurd hj (Nat.not_lt_zero j)) rfl rfl rfl

theorem posNum_iff (v : Option Json) :
    posNum v = true ↔ ∃ a : Rat, v = some (.num a) ∧ 0 < a := by
  cases v with
  | none => simp [posNum]
  | some j => cases j <;> simp [posNum]

/-- C6: for an item whose sku is the custom-size large-format code
"LFP_CS" (and which passes the earlier shape checks), validation of the
item succeeds exactly when both longEdge and shortEdge are supplied as
strictly positive numbers; a missing or non-positive dimension fails. -/
theorem lfp_cs_requires_dimensions (fs : List (String × Json)) (pfx : String)
    (hsku : lookupField fs "sku" = some (.str "LFP_CS"))
    (hpt : productTypeOk (lookupField fs "productType") = true)
    (hq : quantityOk (lookupField fs "quantity") = true) :
    validateItem (.obj fs) pfx false = .ok () ↔
      ((∃ a : Rat, lookupField fs "longEdge" = some (.num a) ∧ 0 < a) ∧
       (∃ b : Rat, lookupField fs "shortEdge" = some (.num b) ∧ 0 < b)) := by
  rw [validateItem_ok_iff]
  simp +decide [itemOk, getField, isObjB, hsku, hpt, hq, dimsOk, skuIsLfpCs,
    isNonEmptyString, posNum_iff]


/-- Witness for C6: dimensions 48 and 36 pass the check. -/
theorem lfp_cs_requires_dimensions_witness :
    validateItem (.obj lfpItemFs) "orderItems[0]" false = .ok () :=
  (lfp_cs_requires_dimensions lfpItemFs "orderItems[0]" rfl rfl rfl).mpr
    ⟨⟨48, rfl, by decide⟩, ⟨36, rfl, by decide⟩⟩

theorem validateCustomer_ok_state (cust : Json) (label : String)
    (h : validateCustomer cust label = .ok ()) :
    isState (getField cust "state") = true := by
  simp only [validateCustomer, seq_ok_iff, boolCheck_ok_iff, requireString] at h
  tauto


/-- C7: a state code uppercasing to "AK" or "HI" can never pass customer
validation, and every code whose uppercasing lies in the 48
contiguous-states-plus-DC list passes the state check. -/
theorem state_code_allow_list (cust : Json) (label s : String)
    (hs : getField cust "state" = some (.str s)) :
    ((upStr s = "AK" ∨ upStr s = "HI") →
      validateCustomer cust label ≠ .ok ()) ∧
    (upStr s ∈ CONTIGUOUS_STATES_DC →
      isState (getField cust "state") = true) := by
  constructor
  · intro hak hok
    have hst := validateCustomer_ok_state cust label hok
    rw [hs] at hst
    have hst2 : VALID_STATES.contains (upStr s) = true := hst
    rcases hak with hak | hak <;> rw [hak] at hst2 <;>
      exact absurd hst2 (by decide)
  · intro hmem
    rw [hs]
    show VALID_STATES.contains (upStr s) = true
    have hsub : ∀ x ∈ CONTIGUOUS_STATES_DC, VALID_STATES.contains x = true := by
      decide
    exact hsub _ hmem



/-- Witness for C7: lowercase "hi" fails validation, lowercase "dc"
passes the state check. -/
theorem state_code_allow_list_witness :
    validateCustomer custHI "shippingCustomer" ≠ .ok () ∧
    isState (getField custDC "state") = true := by
  constructor
  · exact (state_code_allow_list custHI "shippingCustomer" "hi" rfl).1
      (Or.inr (by decide))
  · exact (state_code_allow_list custDC "shippingCustomer" "dc" rfl).2
      (by decide)

/-- C9: the dimensional check triggers only on exact, case-sensitive sku
equality with "LFP_CS"; an item with any other sku (such as the case
variant "lfp_cs") that passes the shape, sku, productType and quantity
checks validates successfully even with no longEdge/shortEdge at all. -/
theorem dims_check_exact_sku_only (fs : List (String × Json)) (pfx : String)
    (s : String) (hsku : lookupField fs "sku" = some (.str s))
    (hne : s ≠ "LFP_CS")
    (hstr : isNonEmptyString (some (.str s)) = true)
    (hpt : productTypeOk (lookupField fs "productType") = true)
    (hq : quantityOk (lookupField fs "quantity") = true) :
    validateItem (.obj fs) pfx false = .ok () ∧
    validateOrderItems (.arr [.obj fs]) false = .ok () := by
  have hok : itemOk (.obj fs) false = true := by
    simp [itemOk, getField, isObjB, hsku, hstr, hpt, hq, dimsOk, skuIsLfpCs, hne]
  refine ⟨(validateItem_ok_iff _ pfx false).mpr hok, ?_⟩
  have h2 := (validateItem_ok_iff (.obj fs)
    ("orderItems[" ++ toString 0 ++ "]") false).mpr hok
  simp [validateOrderItems, validateItemsFrom, h2, Bind.bind, Except.bind]


/-- Witness for C9 at the lowercase sku variant with no dimensions. -/
theorem dims_check_exact_sku_only_witness :
    validateItem (.obj lfpLowerFs) "orderItems[0]" false = .ok () ∧
    validateOrderItems (.arr [.obj lfpLowerFs]) false = .ok () :=
  dims_check_exact_sku_only lfpLowerFs "orderItems[0]" "lfp_cs" rfl
    (by decide) (by decide) rfl rfl

/-- C10: checkPricing validates with the file requirement disabled, so an
item's files field is never inspected — replacing it with any value
leaves per-item validation unchanged — and the issued POST /pricing
request carries the caller's items verbatim (files field included) under
the injected accountId. -/
theorem check_pricing_ignores_files (c : Config) (l : List Json)
    (h : validateOrderItems (.arr l) false = .ok ()) :
    buildOp c (.checkPricing (.arr l)) =
      .ok ⟨"POST", "/pricing", [],
        some (.obj [("accountId", .str c.accountId),
                    ("orderItems", .arr l)])⟩ ∧
    (∀ fs v pfx, validateItem (.obj (setKey fs "files" v)) pfx false =
      validateItem (.obj fs) pfx false) := by
  constructor
  · show (validateOrderItems (.arr l) false >>= fun _ => _) = _
    rw [h]
    rfl
  · intro fs v pfx
    have hk : ∀ k, k ≠ "files" →
        lookupField (setKey fs "files" v) k = lookupField fs k :=
      fun k hk => lookupField_setKey_ne fs k "files" v (fun hc => hk hc.symm)
    simp only [validateItem, checkDims, skuIsLfpCs, getField, isObjB,
      hk "sku" (by decide), hk "productType" (by decide),
      hk "quantity" (by decide), hk "longEdge" (by decide),
      hk "shortEdge" (by decide), Bool.false_eq_true, if_false]


/-- Witness for C10: the insecure files field passes checkPricing
validation and is sent verbatim. -/
theorem check_pricing_ignores_files_witness :
    buildOp cfgProd (.checkPricing (.arr [weirdFilesItem])) =
      .ok ⟨"POST", "/pricing", [],
        some (.obj [("accountId", .str "ACCT-1"),
                    ("orderItems", .arr [weirdFilesItem])])⟩ :=
  (check_pricing_ignores_files cfgProd [weirdFilesItem] rfl).1
